import Mathlib

/-
Verification of the classification orchestration subsystem of the
join-the-siege repository.

Shallow embedding of:
  src/src/multi_provider_llm.py   (MultiProviderLLM: health tracking,
                                   escalation, backup chain)
  src/src/classifier/llm_call.py  (classify_with_llm, parse_llm_response)
  src/src/async_classifier.py     (classify_document_async, get_task_result)

Conventions: Python time.time() is modelled as a natural number of
seconds; confidences are rationals; Python dicts whose keys may be
absent are records with Option fields; an adapter response is a record
with a success flag, mirroring the dicts built by the per-provider
call methods (which catch every exception internally).
-/

namespace JoinSiege

/-- The LLMProvider enum of multi_provider_llm.py. -/
inductive LLMProvider where
  | openai_gpt4o_mini
  | openai_gpt4o
  | google_gemini
  | anthropic_claude
deriving DecidableEq, Repr

/-- The string value of each enum member. -/
def LLMProvider.value : LLMProvider → String
  | .openai_gpt4o_mini => "openai_gpt4o_mini"
  | .openai_gpt4o => "openai_gpt4o"
  | .google_gemini => "google_gemini"
  | .anthropic_claude => "anthropic_claude"

/-- One entry of the provider_health dict: failures and last_failure. -/
structure ProviderHealth where
  failures : Nat
  last_failure : Nat
deriving DecidableEq, Repr

/-- The provider_health dict: one ProviderHealth per provider. -/
structure HealthState where
  mini : ProviderHealth
  gpt4o : ProviderHealth
  gemini : ProviderHealth
  claude : ProviderHealth
deriving DecidableEq, Repr

def HealthState.get (s : HealthState) : LLMProvider → ProviderHealth
  | .openai_gpt4o_mini => s.mini
  | .openai_gpt4o => s.gpt4o
  | .google_gemini => s.gemini
  | .anthropic_claude => s.claude

def HealthState.set (s : HealthState) (p : LLMProvider) (h : ProviderHealth) :
    HealthState :=
  match p with
  | .openai_gpt4o_mini => { s with mini := h }
  | .openai_gpt4o => { s with gpt4o := h }
  | .google_gemini => { s with gemini := h }
  | .anthropic_claude => { s with claude := h }

/-- The fresh health dict built in MultiProviderLLM.__init__:
all counters and timestamps zero. -/
def HealthState.init : HealthState :=
  ⟨⟨0, 0⟩, ⟨0, 0⟩, ⟨0, 0⟩, ⟨0, 0⟩⟩

/-- MultiProviderLLM.is_provider_healthy. Returns the boolean outcome
together with the (possibly mutated) health dict: fewer than 3 failures
is healthy; at 3 or more failures the counter is reset to 0 and the
check succeeds exactly when more than 300 seconds have passed since the
last failure; otherwise the provider is unhealthy. -/
def is_provider_healthy (now : Nat) (s : HealthState) (p : LLMProvider) :
    Bool × HealthState :=
  let health := s.get p
  if health.failures < 3 then (true, s)
  else if now - health.last_failure > 300 then
    (true, s.set p { health with failures := 0 })
  else (false, s)

/-- MultiProviderLLM.record_success: reset the failure counter to 0. -/
def record_success (s : HealthState) (p : LLMProvider) : HealthState :=
  s.set p { s.get p with failures := 0 }

/-- MultiProviderLLM.record_failure: increment the failure counter and
stamp the current time. -/
def record_failure (now : Nat) (s : HealthState) (p : LLMProvider) : HealthState :=
  s.set p ⟨(s.get p).failures + 1, now⟩

/-- The dict returned by the per-provider call methods. Each of those
methods catches every exception internally, so it always returns a dict
carrying a success flag; on success it carries a classification label
(defaulted to unknown by the method), a confidence and a model name, and
on failure an error string. -/
structure CallRes where
  success : Bool
  classification : String
  confidence : ℚ
  model : String
  error : String
deriving DecidableEq, Repr

/-- The external oracle for one orchestrator run: the response each
provider would give if called. Each provider is called at most once per
run of classify_with_confidence_upgrade. -/
structure AdapterEnv where
  mini : CallRes
  gpt4o : CallRes
  gemini : CallRes
  claude : CallRes
deriving DecidableEq, Repr

def AdapterEnv.call (env : AdapterEnv) : LLMProvider → CallRes
  | .openai_gpt4o_mini => env.mini
  | .openai_gpt4o => env.gpt4o
  | .google_gemini => env.gemini
  | .anthropic_claude => env.claude

/-- The enabled flags of the backup_providers dict, fixed at
construction time from the configured API keys. -/
structure BackupConfig where
  gemini_enabled : Bool
  claude_enabled : Bool
deriving DecidableEq, Repr

/-- Whether a provider occurs enabled in the backup_providers dict.
Only the two backup providers occur there; the primary providers are
never looked up. -/
def BackupConfig.enabled (cfg : BackupConfig) : LLMProvider → Bool
  | .google_gemini => cfg.gemini_enabled
  | .anthropic_claude => cfg.claude_enabled
  | _ => false

/-- Truthiness of an optional environment variable, as Python bool()
applied to os.getenv: absent and empty strings are falsy. -/
def keyTruthy : Option String → Bool
  | none => false
  | some s => s ≠ ""

/-- The enabled flags computed in MultiProviderLLM.__init__ from the
GOOGLE_API_KEY and ANTHROPIC_API_KEY environment variables. -/
def mkBackupConfig (googleKey anthropicKey : Option String) : BackupConfig :=
  ⟨keyTruthy googleKey, keyTruthy anthropicKey⟩

/-- The result dict the orchestrator returns. Keys that the source adds
only on some paths are Option fields. -/
structure ClassifyResult where
  classification : String
  confidence : ℚ
  model : String
  provider_used : Option String := none
  upgraded : Option Bool := none
  upgrade_failed : Option Bool := none
  is_backup : Option Bool := none
  upgrade_reason : Option String := none
  original_confidence : Option ℚ := none
  original_classification : Option String := none
deriving DecidableEq, Repr

/-- The base result dict of a successful adapter call, before the
orchestrator adds any bookkeeping keys. -/
def CallRes.toResult (r : CallRes) : ClassifyResult :=
  { classification := r.classification, confidence := r.confidence,
    model := r.model }

/-- Observable events of one orchestrator run: an adapter call, or a
record_success / record_failure update for a provider, in program
order. -/
inductive Event where
  | call (p : LLMProvider)
  | recSuccess (p : LLMProvider)
  | recFailure (p : LLMProvider)
deriving DecidableEq, Repr

/-- MultiProviderLLM._try_backup_providers, generalised over the list
of providers still to try (the source iterates the fixed backup_order
list). For each provider in order: skip it when its enabled flag is
false; otherwise run the mutating health check and skip it when
unhealthy; otherwise call it, and on success record the success and
return the result tagged with the provider and is_backup, while on
failure record the failure and continue with the rest. -/
def tryBackupList (env : AdapterEnv) (cfg : BackupConfig) (now : Nat) :
    List LLMProvider → HealthState →
    Option ClassifyResult × HealthState × List Event
  | [], s => (none, s, [])
  | p :: ps, s =>
    if cfg.enabled p = false then tryBackupList env cfg now ps s
    else
      let checked := is_provider_healthy now s p
      if checked.1 = false then tryBackupList env cfg now ps checked.2
      else
        let r := env.call p
        if r.success then
          (some { r.toResult with
                  provider_used := some p.value
                  is_backup := some true },
           record_success checked.2 p,
           [Event.call p, Event.recSuccess p])
        else
          let rest := tryBackupList env cfg now ps (record_failure now checked.2 p)
          (rest.1, rest.2.1, Event.call p :: Event.recFailure p :: rest.2.2)

/-- The backup_order list of _try_backup_providers. -/
def backup_order : List LLMProvider :=
  [.google_gemini, .anthropic_claude]

/-- MultiProviderLLM._try_backup_providers at its fixed backup order. -/
def try_backup_providers (env : AdapterEnv) (cfg : BackupConfig) (now : Nat)
    (s : HealthState) : Option ClassifyResult × HealthState × List Event :=
  tryBackupList env cfg now backup_order s

/-- MultiProviderLLM.classify_with_confidence_upgrade. Returns the
result (or the all-providers-failed error), the final health dict, and
the trace of adapter calls and health updates in program order.

The primary call itself cannot raise (its callee catches everything),
so the except branch of the source is reached exactly through the raise
executed when the primary response has success false; on that path
record_failure for the primary runs twice, once before the raise and
once in the except handler. On the path where the quality upgrade call
returns success false, the source records nothing for the quality
provider. The low-confidence upgrade reason string in the source also
interpolates the numeric confidence; the trailing number is elided
here, no claim depends on that text. -/
def classify_with_confidence_upgrade (env : AdapterEnv) (cfg : BackupConfig)
    (confidence_threshold : ℚ) (now : Nat) (s : HealthState) :
    Except String ClassifyResult × HealthState × List Event :=
  let result := env.mini
  if result.success then
    let s1 := record_success s .openai_gpt4o_mini
    let ev1 : List Event :=
      [.call .openai_gpt4o_mini, .recSuccess .openai_gpt4o_mini]
    let confidence := result.confidence
    let classification := result.classification
    if confidence < confidence_threshold ∨ classification = "unknown" then
      let reason :=
        if classification = "unknown" then "unknown classification"
        else "low confidence"
      let ev2 := ev1 ++ [Event.call .openai_gpt4o]
      let upgrade_result := env.gpt4o
      if upgrade_result.success then
        let s2 := record_success s1 .openai_gpt4o
        let ev3 := ev2 ++ [Event.recSuccess .openai_gpt4o]
        let ur : ClassifyResult :=
          { upgrade_result.toResult with
            provider_used := some "openai_gpt4o"
            upgraded := some true
            upgrade_reason := some reason
            original_confidence := some confidence
            original_classification := some classification }
        if upgrade_result.classification = "unknown" then
          let bk := try_backup_providers env cfg now s2
          let ev4 := ev3 ++ bk.2.2
          match bk.1 with
          | some br =>
            if br.classification ≠ "unknown" then
              (Except.ok { br with
                           upgraded := some true
                           upgrade_reason := some "unknown after GPT-4o" },
               bk.2.1, ev4)
            else (Except.ok ur, bk.2.1, ev4)
          | none => (Except.ok ur, bk.2.1, ev4)
        else (Except.ok ur, s2, ev3)
      else
        let bk := try_backup_providers env cfg now s1
        let ev3 := ev2 ++ bk.2.2
        match bk.1 with
        | some br => (Except.ok br, bk.2.1, ev3)
        | none =>
          (Except.ok { result.toResult with
                       provider_used := some "openai_gpt4o_mini"
                       upgraded := some false
                       upgrade_failed := some true },
           bk.2.1, ev3)
    else
      (Except.ok { result.toResult with
                   provider_used := some "openai_gpt4o_mini"
                   upgraded := some false },
       s1, ev1)
  else
    let sA := record_failure now s .openai_gpt4o_mini
    let sB := record_failure now sA .openai_gpt4o_mini
    let ev1 : List Event :=
      [.call .openai_gpt4o_mini, .recFailure .openai_gpt4o_mini,
       .recFailure .openai_gpt4o_mini]
    let bk := try_backup_providers env cfg now sB
    let ev2 := ev1 ++ bk.2.2
    match bk.1 with
    | some br => (Except.ok br, bk.2.1, ev2)
    | none => (Except.error "All LLM providers failed", bk.2.1, ev2)

/-! Embedding of classify_with_llm and parse_llm_response from
src/src/classifier/llm_call.py (the prompt assembly is pure string
concatenation with no effect on any claim and is elided; the category
list is the parameter the source obtains from the category loader). -/

/-- The dict classify_with_llm finally returns. The multi-provider
path always fills the first six fields; the single-provider fallback
returns only classification and confidence plus, on its error paths, a
reasoning string, so the remaining keys are Option fields there and
the record carries the missing keys as their defaults with a presence
flag kept implicit: fields absent in the fallback dicts are modelled
by the stated default values, which is what every downstream get call
with those defaults observes. -/
structure LLMCallFinal where
  classification : String
  confidence : ℚ
  provider_used : String := "unknown"
  upgraded : Bool := false
  is_backup : Bool := false
  model : String := "unknown"
  reasoning : Option String := none
deriving DecidableEq, Repr

instance : Inhabited LLMCallFinal := ⟨{ classification := "unknown", confidence := 0 }⟩

/-- Outcome of stripping the markdown fence from the content string and
applying json.loads plus the two get calls with defaults: either a
classification and confidence pair, or a JSON decode error. The JSON
parser itself is library code; it is abstracted as this oracle. -/
inductive ParsedContent where
  | ok (classification : String) (confidence : ℚ)
  | jsonError (msg : String)
deriving DecidableEq, Repr

/-- The dict call_vision_llm returns: a success flag, an error string on
failure, and on success the content whose parse is given by parsed. -/
structure VisionResponse where
  success : Bool
  error : String
  parsed : ParsedContent
deriving DecidableEq, Repr

/-- parse_llm_response of llm_call.py: a failed call maps to the
processing_error sentinel, a JSON decode failure to the parsing_error
sentinel, and a parsed response has its label checked against the
valid categories and coerced to unknown when absent. -/
def parse_llm_response (llm_response : VisionResponse)
    (valid_categories : List String) : LLMCallFinal :=
  if llm_response.success = false then
    { classification := "processing_error", confidence := 0,
      reasoning := some ("LLM call failed: " ++ llm_response.error) }
  else
    match llm_response.parsed with
    | .ok c conf =>
      { classification := if c ∈ valid_categories then c else "unknown",
        confidence := conf }
    | .jsonError e =>
      { classification := "parsing_error", confidence := 0,
        reasoning := some ("Failed to parse JSON response: " ++ e) }

/-- classify_with_llm of src/src/classifier/llm_call.py, after the
prompt is built: run the multi-provider orchestrator; on a normal
return validate the label against the categories and assemble the
final dict through the get calls with their defaults; when the
orchestrator raises, fall back to the single-provider call_vision_llm
plus parse_llm_response pipeline, whose response is the fallback
parameter. -/
def classify_with_llm (categories : List String)
    (multiOutcome : Except String ClassifyResult)
    (fallback : VisionResponse) : LLMCallFinal :=
  match multiOutcome with
  | .ok r =>
    { classification :=
        if r.classification ∈ categories then r.classification else "unknown"
      confidence := r.confidence
      provider_used := r.provider_used.getD "unknown"
      upgraded := r.upgraded.getD false
      is_backup := r.is_backup.getD false
      model := r.model }
  | .error _ => parse_llm_response fallback categories

/-! Embedding of the job layer from src/src/async_classifier.py. -/

/-- Outcome of one execution attempt of the classify_document_async
Celery task: a completed result, a retry scheduled after a countdown in
seconds, or a terminal failure carrying the error message. -/
inductive TaskStep where
  | completed (r : LLMCallFinal)
  | retryAfter (countdown : Nat)
  | failed (error : String)
deriving DecidableEq, Repr

/-- One execution attempt of classify_document_async: a normal return
of the processing pipeline completes the task; an escaping exception is
passed to self.retry with countdown 60 * 2 ^ retries, where retries is
the number of retries already consumed. The retry-versus-terminal
decision follows the documented semantics of Celery Task.retry, which
the decorator configures with max_retries = 3: while fewer than
max_retries retries are consumed the task is re-enqueued after the
countdown, and otherwise the original exception is re-raised and the
task ends in the failure state carrying that error. -/
def classify_document_async (max_retries retries : Nat)
    (outcome : Except String LLMCallFinal) : TaskStep :=
  match outcome with
  | .ok r => .completed r
  | .error e =>
    if retries < max_retries then .retryAfter (60 * 2 ^ retries)
    else .failed e

/-- The max_retries value configured on the task decorator. -/
def task_max_retries : Nat := 3

/-- The Celery task state observed through AsyncResult, as far as
get_task_result consults it: pending (also the state Celery reports
for an id that was never issued), started, retryPending, a success
carrying the stored result, or a failure whose info is the stored
error. -/
inductive CeleryState where
  | pending
  | started
  | retryPending
  | success (r : LLMCallFinal)
  | failure (error : String)
deriving DecidableEq, Repr

/-- AsyncResult.ready: true exactly in a terminal state. -/
def CeleryState.ready : CeleryState → Bool
  | .success _ => true
  | .failure _ => true
  | _ => false

/-- AsyncResult.successful: true exactly on success. -/
def CeleryState.successful : CeleryState → Bool
  | .success _ => true
  | _ => false

/-- AsyncResult.result, as read on the completed branch. -/
def CeleryState.resultOf : CeleryState → LLMCallFinal
  | .success r => r
  | _ => default

/-- str applied to AsyncResult.info, as read on the failed branch. -/
def CeleryState.infoStr : CeleryState → String
  | .failure e => e
  | _ => ""

/-- The three response shapes get_task_result builds (task ids elided:
the source copies the queried id into every response). -/
inductive PollStatus where
  | processing
  | completedWith (r : LLMCallFinal)
  | failedWith (error : String)
deriving DecidableEq, Repr

/-- The status string of each response shape. -/
def PollStatus.statusString : PollStatus → String
  | .processing => "processing"
  | .completedWith _ => "completed"
  | .failedWith _ => "failed"

/-- get_task_result of src/src/async_classifier.py: a ready and
successful task reports completed with the stored result, a ready
unsuccessful task reports failed with the stored info, and every other
state reports processing. -/
def get_task_result (t : CeleryState) : PollStatus :=
  if t.ready then
    if t.successful then .completedWith t.resultOf
    else .failedWith t.infoStr
  else .processing

/-- The state Celery reports for a task id that was never issued by
submit: AsyncResult of an unknown id is pending. -/
def unknownIdState : CeleryState := .pending

/-! Trace observables. -/

/-- Number of adapter calls to a provider in a trace. -/
def callCount (tr : List Event) (p : LLMProvider) : Nat :=
  tr.count (Event.call p)

/-- Number of health-record updates for a provider in a trace. -/
def recCount (tr : List Event) (p : LLMProvider) : Nat :=
  tr.count (Event.recSuccess p) + tr.count (Event.recFailure p)

/-- The subsequence of call events of a trace. -/
def callEvents (tr : List Event) : List Event :=
  tr.filter fun e => match e with | .call _ => true | _ => false

/-! Definitional and structural lemmas. -/

theorem HealthState.get_set (s : HealthState) (p : LLMProvider)
    (h : ProviderHealth) : (s.set p h).get p = h := by
  cases p <;> rfl

/-- Chain step: a disabled provider is skipped with no events. -/
theorem tryBackupList_cons_disabled (env : AdapterEnv) (cfg : BackupConfig)
    (now : Nat) (p : LLMProvider) (ps : List LLMProvider) (s : HealthState)
    (hen : cfg.enabled p = false) :
    tryBackupList env cfg now (p :: ps) s = tryBackupList env cfg now ps s := by
  simp [tryBackupList, hen]

/-- Chain step: a provider whose health check fails at selection time
is skipped with no events; only the state mutation of the health check
itself is kept. -/
theorem tryBackupList_cons_unhealthy (env : AdapterEnv) (cfg : BackupConfig)
    (now : Nat) (p : LLMProvider) (ps : List LLMProvider) (s : HealthState)
    (hen : cfg.enabled p = true)
    (hh : (is_provider_healthy now s p).1 = false) :
    tryBackupList env cfg now (p :: ps) s =
      tryBackupList env cfg now ps (is_provider_healthy now s p).2 := by
  simp [tryBackupList, hen, hh]

/-- Chain step: the first enabled healthy provider whose call succeeds
short-circuits the chain, its success is recorded, and its result is
returned tagged with the provider value and the backup marker. -/
theorem tryBackupList_cons_success (env : AdapterEnv) (cfg : BackupConfig)
    (now : Nat) (p : LLMProvider) (ps : List LLMProvider) (s : HealthState)
    (hen : cfg.enabled p = true)
    (hh : (is_provider_healthy now s p).1 = true)
    (hs : (env.call p).success = true) :
    tryBackupList env cfg now (p :: ps) s =
      (some { (env.call p).toResult with
              provider_used := some p.value
              is_backup := some true },
       record_success (is_provider_healthy now s p).2 p,
       [Event.call p, Event.recSuccess p]) := by
  simp [tryBackupList, hen, hh, hs]

/-- Chain step: an enabled healthy provider whose call fails has its
failure recorded and the chain continues with the remaining
providers. -/
theorem tryBackupList_cons_failure (env : AdapterEnv) (cfg : BackupConfig)
    (now : Nat) (p : LLMProvider) (ps : List LLMProvider) (s : HealthState)
    (hen : cfg.enabled p = true)
    (hh : (is_provider_healthy now s p).1 = true)
    (hs : (env.call p).success = false) :
    tryBackupList env cfg now (p :: ps) s =
      ((tryBackupList env cfg now ps
          (record_failure now (is_provider_healthy now s p).2 p)).1,
       (tryBackupList env cfg now ps
          (record_failure now (is_provider_healthy now s p).2 p)).2.1,
       Event.call p :: Event.recFailure p ::
         (tryBackupList env cfg now ps
           (record_failure now (is_provider_healthy now s p).2 p)).2.2) := by
  simp [tryBackupList, hen, hh, hs]

/-- Any result the backup chain returns came from a successful call to
one of the listed providers and is tagged with that provider and the
backup marker. -/
theorem tryBackupList_some_spec (env : AdapterEnv) (cfg : BackupConfig)
    (now : Nat) :
    ∀ (ps : List LLMProvider) (s : HealthState) (br : ClassifyResult),
      (tryBackupList env cfg now ps s).1 = some br →
      br.is_backup = some true ∧ ∃ p ∈ ps, (env.call p).success = true ∧
        br = { (env.call p).toResult with
               provider_used := some p.value
               is_backup := some true } := by
  intro ps
  induction ps with
  | nil => intro s br h; simp [tryBackupList] at h
  | cons p ps ih =>
    intro s br h
    cases hen : cfg.enabled p with
    | false =>
      rw [tryBackupList_cons_disabled env cfg now p ps s hen] at h
      obtain ⟨hb, q, hq, hs, hbr⟩ := ih _ _ h
      exact ⟨hb, q, List.mem_cons_of_mem _ hq, hs, hbr⟩
    | true =>
      cases hh : (is_provider_healthy now s p).1 with
      | false =>
        rw [tryBackupList_cons_unhealthy env cfg now p ps s hen hh] at h
        obtain ⟨hb, q, hq, hs, hbr⟩ := ih _ _ h
        exact ⟨hb, q, List.mem_cons_of_mem _ hq, hs, hbr⟩
      | true =>
        cases hsucc : (env.call p).success with
        | true =>
          rw [tryBackupList_cons_success env cfg now p ps s hen hh hsucc] at h
          rw [Option.some_inj] at h
          refine ⟨by rw [← h], p, List.mem_cons_self _ _, hsucc, h.symm⟩
        | false =>
          rw [tryBackupList_cons_failure env cfg now p ps s hen hh hsucc] at h
          obtain ⟨hb, q, hq, hs, hbr⟩ := ih _ _ h
          exact ⟨hb, q, List.mem_cons_of_mem _ hq, hs, hbr⟩

/-- Per provider, the backup chain records exactly one health update
per call it makes, and calls each listed provider at most as often as
it is listed. -/
theorem tryBackupList_counts (env : AdapterEnv) (cfg : BackupConfig)
    (now : Nat) :
    ∀ (ps : List LLMProvider) (s : HealthState) (p : LLMProvider),
      recCount (tryBackupList env cfg now ps s).2.2 p =
        callCount (tryBackupList env cfg now ps s).2.2 p
      ∧ callCount (tryBackupList env cfg now ps s).2.2 p ≤ ps.count p := by
  intro ps
  induction ps with
  | nil =>
    intro s p
    simp [tryBackupList, recCount, callCount]
  | cons q ps ih =>
    intro s p
    cases hen : cfg.enabled q with
    | false =>
      rw [tryBackupList_cons_disabled env cfg now q ps s hen]
      exact ⟨(ih s p).1, le_trans (ih s p).2 (List.count_le_count_cons p q ps)⟩
    | true =>
      cases hh : (is_provider_healthy now s q).1 with
      | false =>
        rw [tryBackupList_cons_unhealthy env cfg now q ps s hen hh]
        exact ⟨(ih _ p).1, le_trans (ih _ p).2 (List.count_le_count_cons p q ps)⟩
      | true =>
        cases hsucc : (env.call q).success with
        | true =>
          rw [tryBackupList_cons_success env cfg now q ps s hen hh hsucc]
          by_cases hpq : p = q
          · subst hpq
            simp [recCount, callCount, List.count_cons, List.count_nil]
          · simp [recCount, callCount, List.count_cons, List.count_nil,
              hpq, Ne.symm hpq]
        | false =>
          rw [tryBackupList_cons_failure env cfg now q ps s hen hh hsucc]
          obtain ⟨ihrec, ihcall⟩ :=
            ih (record_failure now (is_provider_healthy now s q).2 q) p
          simp only [recCount, callCount] at ihrec ihcall ⊢
          by_cases hpq : p = q
          · subst hpq
            refine ⟨?_, ?_⟩ <;> simp [List.count_cons] <;> omega
          · refine ⟨?_, ?_⟩ <;>
              simp [List.count_cons, hpq, Ne.symm hpq] <;> omega

/-- The call events of the backup chain respect the listed order: they
form a subsequence of the list of providers to try. -/
theorem tryBackupList_calls_sublist (env : AdapterEnv) (cfg : BackupConfig)
    (now : Nat) :
    ∀ (ps : List LLMProvider) (s : HealthState),
      List.Sublist (callEvents (tryBackupList env cfg now ps s).2.2)
        (ps.map Event.call) := by
  intro ps
  induction ps with
  | nil => intro s; simp [tryBackupList, callEvents]
  | cons q ps ih =>
    intro s
    cases hen : cfg.enabled q with
    | false =>
      rw [tryBackupList_cons_disabled env cfg now q ps s hen]
      exact (ih s).cons _
    | true =>
      cases hh : (is_provider_healthy now s q).1 with
      | false =>
        rw [tryBackupList_cons_unhealthy env cfg now q ps s hen hh]
        exact (ih _).cons _
      | true =>
        cases hsucc : (env.call q).success with
        | true =>
          rw [tryBackupList_cons_success env cfg now q ps s hen hh hsucc]
          simp [callEvents]
        | false =>
          rw [tryBackupList_cons_failure env cfg now q ps s hen hh hsucc]
          simp only [callEvents, List.filter_cons]
          simp only [callEvents] at ih
          exact (ih _).cons₂ _

/-- A disabled backup provider is never called by the chain, whatever
its health state. -/
theorem tryBackupList_disabled_not_called (env : AdapterEnv)
    (cfg : BackupConfig) (now : Nat) :
    ∀ (ps : List LLMProvider) (s : HealthState) (p : LLMProvider),
      cfg.enabled p = false →
      Event.call p ∉ (tryBackupList env cfg now ps s).2.2 := by
  intro ps
  induction ps with
  | nil => intro s p _ h; simp [tryBackupList] at h
  | cons q ps ih =>
    intro s p hdis h
    cases hen : cfg.enabled q with
    | false =>
      rw [tryBackupList_cons_disabled env cfg now q ps s hen] at h
      exact ih _ _ hdis h
    | true =>
      have hpq : p ≠ q := by
        intro he; rw [he, hen] at hdis; exact Bool.noConfusion hdis
      cases hh : (is_provider_healthy now s q).1 with
      | false =>
        rw [tryBackupList_cons_unhealthy env cfg now q ps s hen hh] at h
        exact ih _ _ hdis h
      | true =>
        cases hsucc : (env.call q).success with
        | true =>
          rw [tryBackupList_cons_success env cfg now q ps s hen hh hsucc] at h
          simp [hpq] at h
        | false =>
          rw [tryBackupList_cons_failure env cfg now q ps s hen hh hsucc] at h
          simp only [List.mem_cons] at h
          rcases h with h | h | h
          · exact hpq (by injection h)
          · exact Event.noConfusion h
          · exact ih _ _ hdis h

/-- The backup chain trace carries no events for the primary or the
quality provider, and touches each backup provider at most once. -/
theorem try_backup_counts (env : AdapterEnv) (cfg : BackupConfig) (now : Nat)
    (s : HealthState) :
    callCount (try_backup_providers env cfg now s).2.2 .openai_gpt4o_mini = 0
    ∧ recCount (try_backup_providers env cfg now s).2.2 .openai_gpt4o_mini = 0
    ∧ callCount (try_backup_providers env cfg now s).2.2 .openai_gpt4o = 0
    ∧ recCount (try_backup_providers env cfg now s).2.2 .openai_gpt4o = 0
    ∧ (∀ p, p = LLMProvider.google_gemini ∨ p = LLMProvider.anthropic_claude →
        recCount (try_backup_providers env cfg now s).2.2 p =
          callCount (try_backup_providers env cfg now s).2.2 p
        ∧ callCount (try_backup_providers env cfg now s).2.2 p ≤ 1) := by
  have h1 := tryBackupList_counts env cfg now backup_order s .openai_gpt4o_mini
  have h2 := tryBackupList_counts env cfg now backup_order s .openai_gpt4o
  have h3 := tryBackupList_counts env cfg now backup_order s .google_gemini
  have h4 := tryBackupList_counts env cfg now backup_order s .anthropic_claude
  simp [backup_order, List.count_cons, List.count_nil] at h1 h2 h3 h4
  simp only [try_backup_providers, backup_order]
  refine ⟨?_, ?_, ?_, ?_, ?_⟩
  · omega
  · have := h1.1; omega
  · omega
  · have := h2.1; omega
  · intro p hp
    rcases hp with hp | hp <;> subst hp
    · exact ⟨h3.1, by omega⟩
    · exact ⟨h4.1, by omega⟩

/-- Claim C4: the backup chain. The calls of the chain respect the fixed
priority order of backup_order; a provider whose health check is false
at selection time is skipped without being called; the first enabled
healthy provider whose call succeeds has its success recorded and its
result returned tagged with the provider and the backup marker; an
enabled healthy provider whose call fails has the failure recorded and
the chain continues with the next provider; and when the chain is
entered after a primary failure and yields no result, the orchestrator
raises the all-providers-failed error.
-/
theorem backup_chain_spec :
    (∀ (env : AdapterEnv) (cfg : BackupConfig) (now : Nat) (s : HealthState),
      List.Sublist (callEvents (try_backup_providers env cfg now s).2.2)
        (backup_order.map Event.call))
    ∧ (∀ (env : AdapterEnv) (cfg : BackupConfig) (now : Nat) (p : LLMProvider)
        (ps : List LLMProvider) (s : HealthState),
        cfg.enabled p = true → (is_provider_healthy now s p).1 = false →
        tryBackupList env cfg now (p :: ps) s =
          tryBackupList env cfg now ps (is_provider_healthy now s p).2)
    ∧ (∀ (env : AdapterEnv) (cfg : BackupConfig) (now : Nat) (p : LLMProvider)
        (ps : List LLMProvider) (s : HealthState),
        cfg.enabled p = true → (is_provider_healthy now s p).1 = true →
        (env.call p).success = true →
        tryBackupList env cfg now (p :: ps) s =
          (some { (env.call p).toResult with
                  provider_used := some p.value
                  is_backup := some true },
           record_success (is_provider_healthy now s p).2 p,
           [Event.call p, Event.recSuccess p]))
    ∧ (∀ (env : AdapterEnv) (cfg : BackupConfig) (now : Nat) (p : LLMProvider)
        (ps : List LLMProvider) (s : HealthState),
        cfg.enabled p = true → (is_provider_healthy now s p).1 = true →
        (env.call p).success = false →
        tryBackupList env cfg now (p :: ps) s =
          ((tryBackupList env cfg now ps
              (record_failure now (is_provider_healthy now s p).2 p)).1,
           (tryBackupList env cfg now ps
              (record_failure now (is_provider_healthy now s p).2 p)).2.1,
           Event.call p :: Event.recFailure p ::
             (tryBackupList env cfg now ps
               (record_failure now (is_provider_healthy now s p).2 p)).2.2))
    ∧ (∀ (env : AdapterEnv) (cfg : BackupConfig) (th : ℚ) (now : Nat)
        (s : HealthState),
        env.mini.success = false →
        (try_backup_providers env cfg now
          (record_failure now (record_failure now s .openai_gpt4o_mini)
            .openai_gpt4o_mini)).1 = none →
        (classify_with_confidence_upgrade env cfg th now s).1 =
          Except.error "All LLM providers failed") := by
  refine ⟨?_, ?_, ?_, ?_, ?_⟩
  · intro env cfg now s
    exact tryBackupList_calls_sublist env cfg now backup_order s
  · intro env cfg now p ps s hen hh
    exact tryBackupList_cons_unhealthy env cfg now p ps s hen hh
  · intro env cfg now p ps s hen hh hs
    exact tryBackupList_cons_success env cfg now p ps s hen hh hs
  · intro env cfg now p ps s hen hh hs
    exact tryBackupList_cons_failure env cfg now p ps s hen hh hs
  · intro env cfg th now s hmini hnone
    simp [classify_with_confidence_upgrade, hmini, hnone]

/-- Witness for backup_chain_spec at concrete inputs: with a failing
primary, a failing enabled gemini and a disabled claude, the chain
yields nothing and the orchestrator reports the all-providers-failed
error. -/
theorem backup_chain_spec_witness :
    (({ mini := ⟨false, "unknown", 0, "gpt-4o-mini", "timeout"⟩
        gpt4o := ⟨false, "unknown", 0, "gpt-4o", "timeout"⟩
        gemini := ⟨false, "unknown", 0, "gemini-1.5-flash", "500"⟩
        claude := ⟨false, "unknown", 0, "claude-3-haiku", "500"⟩ } :
          AdapterEnv).mini.success = false)
    ∧ (try_backup_providers
        ({ mini := ⟨false, "unknown", 0, "gpt-4o-mini", "timeout"⟩
           gpt4o := ⟨false, "unknown", 0, "gpt-4o", "timeout"⟩
           gemini := ⟨false, "unknown", 0, "gemini-1.5-flash", "500"⟩
           claude := ⟨false, "unknown", 0, "claude-3-haiku", "500"⟩ } :
             AdapterEnv)
        ⟨true, false⟩ 1000
        (record_failure 1000
          (record_failure 1000 HealthState.init .openai_gpt4o_mini)
          .openai_gpt4o_mini)).1 = none
    ∧ (classify_with_confidence_upgrade
        ({ mini := ⟨false, "unknown", 0, "gpt-4o-mini", "timeout"⟩
           gpt4o := ⟨false, "unknown", 0, "gpt-4o", "timeout"⟩
           gemini := ⟨false, "unknown", 0, "gemini-1.5-flash", "500"⟩
           claude := ⟨false, "unknown", 0, "claude-3-haiku", "500"⟩ } :
             AdapterEnv)
        ⟨true, false⟩ (4/5 : ℚ) 1000 HealthState.init).1 =
      Except.error "All LLM providers failed" := by
  refine ⟨by decide, by decide, ?_⟩
  exact backup_chain_spec.2.2.2.2
    { mini := ⟨false, "unknown", 0, "gpt-4o-mini", "timeout"⟩
      gpt4o := ⟨false, "unknown", 0, "gpt-4o", "timeout"⟩
      gemini := ⟨false, "unknown", 0, "gemini-1.5-flash", "500"⟩
      claude := ⟨false, "unknown", 0, "claude-3-haiku", "500"⟩ }
    ⟨true, false⟩ (4/5 : ℚ) 1000 HealthState.init (by decide) (by decide)

/-- Claim C10: a backup provider whose API key was not configured at
construction time has enabled false and is never called by the chain,
whatever its health state; with no backup API keys configured the
chain always yields nothing, touching neither state nor trace, and a
primary failure then raises the all-providers-failed error with only
the primary call and its two failure records in the trace.
-/
theorem disabled_backups_never_tried :
    (∀ (env : AdapterEnv) (cfg : BackupConfig) (now : Nat)
        (ps : List LLMProvider) (s : HealthState) (p : LLMProvider),
      cfg.enabled p = false →
      Event.call p ∉ (tryBackupList env cfg now ps s).2.2)
    ∧ mkBackupConfig none none = ⟨false, false⟩
    ∧ (∀ (env : AdapterEnv) (now : Nat) (s : HealthState),
        try_backup_providers env (mkBackupConfig none none) now s =
          (none, s, []))
    ∧ (∀ (env : AdapterEnv) (th : ℚ) (now : Nat) (s : HealthState),
        env.mini.success = false →
        classify_with_confidence_upgrade env (mkBackupConfig none none)
          th now s =
          (Except.error "All LLM providers failed",
           record_failure now (record_failure now s .openai_gpt4o_mini)
             .openai_gpt4o_mini,
           [Event.call .openai_gpt4o_mini, Event.recFailure .openai_gpt4o_mini,
            Event.recFailure .openai_gpt4o_mini])) := by
  refine ⟨?_, rfl, ?_, ?_⟩
  · intro env cfg now ps s p hdis
    exact tryBackupList_disabled_not_called env cfg now ps s p hdis
  · intro env now s
    simp [try_backup_providers, backup_order, tryBackupList, mkBackupConfig,
      keyTruthy, BackupConfig.enabled]
  · intro env th now s hmini
    simp [classify_with_confidence_upgrade, hmini, try_backup_providers,
      backup_order, tryBackupList, mkBackupConfig, keyTruthy,
      BackupConfig.enabled]

/-- Witness for disabled_backups_never_tried: with no backup keys and
a failing primary, the orchestrator raises immediately with exactly
the primary call and its two failure records. -/
theorem disabled_backups_never_tried_witness :
    (({ mini := ⟨false, "unknown", 0, "gpt-4o-mini", "429"⟩
        gpt4o := ⟨true, "invoice", 9/10, "gpt-4o", ""⟩
        gemini := ⟨true, "invoice", 9/10, "gemini-1.5-flash", ""⟩
        claude := ⟨true, "invoice", 9/10, "claude-3-haiku", ""⟩ } :
          AdapterEnv).mini.success = false)
    ∧ classify_with_confidence_upgrade
        ({ mini := ⟨false, "unknown", 0, "gpt-4o-mini", "429"⟩
           gpt4o := ⟨true, "invoice", 9/10, "gpt-4o", ""⟩
           gemini := ⟨true, "invoice", 9/10, "gemini-1.5-flash", ""⟩
           claude := ⟨true, "invoice", 9/10, "claude-3-haiku", ""⟩ } :
             AdapterEnv)
        (mkBackupConfig none none) (4/5 : ℚ) 777 HealthState.init =
      (Except.error "All LLM providers failed",
       record_failure 777 (record_failure 777 HealthState.init
         .openai_gpt4o_mini) .openai_gpt4o_mini,
       [Event.call .openai_gpt4o_mini, Event.recFailure .openai_gpt4o_mini,
        Event.recFailure .openai_gpt4o_mini]) := by
  refine ⟨by decide, ?_⟩
  exact disabled_backups_never_tried.2.2.2
    { mini := ⟨false, "unknown", 0, "gpt-4o-mini", "429"⟩
      gpt4o := ⟨true, "invoice", 9/10, "gpt-4o", ""⟩
      gemini := ⟨true, "invoice", 9/10, "gemini-1.5-flash", ""⟩
      claude := ⟨true, "invoice", 9/10, "claude-3-haiku", ""⟩ }
    (4/5 : ℚ) 777 HealthState.init (by decide)

/-- Claim C2: the circuit breaker. A provider with fewer than 3 recorded
consecutive failures is healthy and the check leaves the state alone;
with 3 or more failures the check returns true and resets the counter
to 0 exactly when more than 300 seconds have passed since the last
failure, and returns false leaving the state alone otherwise; after
exactly 3 consecutive recorded failures, a check within the cooldown
window reports unhealthy; a single record_success resets the counter so
the next check reports healthy; record_failure increments the counter
and stamps the current time; record_success resets the counter to 0.
-/
theorem circuit_breaker_spec :
    (∀ now s p, (s.get p).failures < 3 →
      is_provider_healthy now s p = (true, s))
    ∧ (∀ now s p, 3 ≤ (s.get p).failures →
        (now - (s.get p).last_failure > 300 →
          is_provider_healthy now s p =
            (true, s.set p { s.get p with failures := 0 }))
        ∧ (¬ now - (s.get p).last_failure > 300 →
          is_provider_healthy now s p = (false, s)))
    ∧ (∀ s p t1 t2 t3 now, (s.get p).failures = 0 → now - t3 ≤ 300 →
        (is_provider_healthy now
          (record_failure t3 (record_failure t2 (record_failure t1 s p) p) p)
          p).1 = false)
    ∧ (∀ now s p, (is_provider_healthy now (record_success s p) p).1 = true)
    ∧ (∀ now s p, (record_failure now s p).get p =
        ⟨(s.get p).failures + 1, now⟩)
    ∧ (∀ s p, (record_success s p).get p = { s.get p with failures := 0 }) := by
  refine ⟨?_, ?_, ?_, ?_, ?_, ?_⟩
  · intro now s p hlt
    simp [is_provider_healthy, hlt]
  · intro now s p hge
    constructor
    · intro hcool
      simp [is_provider_healthy, Nat.not_lt.mpr hge, hcool]
    · intro hcool
      simp [is_provider_healthy, Nat.not_lt.mpr hge, hcool]
  · intro s p t1 t2 t3 now h0 hwin
    simp [record_failure, is_provider_healthy, HealthState.get_set, h0,
      Nat.not_lt.mpr hwin]
  · intro now s p
    simp [record_success, is_provider_healthy, HealthState.get_set]
  · intro now s p
    simp [record_failure, HealthState.get_set]
  · intro s p
    simp [record_success, HealthState.get_set]

/-- The event trace of one orchestrator run. -/
def classifyTrace (env : AdapterEnv) (cfg : BackupConfig) (th : ℚ) (now : Nat)
    (s : HealthState) : List Event :=
  (classify_with_confidence_upgrade env cfg th now s).2.2

/-- Shape analysis of the orchestrator trace: every run produces one of
five trace shapes, according to the primary outcome, the escalation
condition and the quality-upgrade outcome. -/
theorem classify_trace_cases (env : AdapterEnv) (cfg : BackupConfig) (th : ℚ)
    (now : Nat) (s : HealthState) :
    (env.mini.success = true ∧ classifyTrace env cfg th now s =
      [Event.call .openai_gpt4o_mini, Event.recSuccess .openai_gpt4o_mini])
    ∨ (env.mini.success = true ∧ env.gpt4o.success = true ∧
        classifyTrace env cfg th now s =
        [Event.call .openai_gpt4o_mini, Event.recSuccess .openai_gpt4o_mini,
         Event.call .openai_gpt4o, Event.recSuccess .openai_gpt4o])
    ∨ (env.mini.success = true ∧ env.gpt4o.success = true ∧
        ∃ s', classifyTrace env cfg th now s =
          [Event.call .openai_gpt4o_mini, Event.recSuccess .openai_gpt4o_mini,
           Event.call .openai_gpt4o, Event.recSuccess .openai_gpt4o] ++
          (try_backup_providers env cfg now s').2.2)
    ∨ (env.mini.success = true ∧ env.gpt4o.success = false ∧
        ∃ s', classifyTrace env cfg th now s =
          [Event.call .openai_gpt4o_mini, Event.recSuccess .openai_gpt4o_mini,
           Event.call .openai_gpt4o] ++
          (try_backup_providers env cfg now s').2.2)
    ∨ (env.mini.success = false ∧
        ∃ s', classifyTrace env cfg th now s =
          [Event.call .openai_gpt4o_mini, Event.recFailure .openai_gpt4o_mini,
           Event.recFailure .openai_gpt4o_mini] ++
          (try_backup_providers env cfg now s').2.2) := by
  by_cases hmini : env.mini.success = true
  · by_cases hesc : env.mini.confidence < th ∨ env.mini.classification = "unknown"
    · cases hupt : env.gpt4o.success with
      | true =>
        by_cases hunk : env.gpt4o.classification = "unknown"
        · refine Or.inr (Or.inr (Or.inl ⟨hmini, rfl,
            record_success (record_success s .openai_gpt4o_mini) .openai_gpt4o, ?_⟩))
          rcases hbkv : (try_backup_providers env cfg now
              (record_success (record_success s .openai_gpt4o_mini)
                .openai_gpt4o)).1 with _ | br
          · simp [classifyTrace, classify_with_confidence_upgrade, hmini,
              if_pos hesc, hupt, hunk, hbkv]
          · by_cases hbru : br.classification ≠ "unknown" <;>
              simp [classifyTrace, classify_with_confidence_upgrade, hmini,
                if_pos hesc, hupt, hunk, hbkv, hbru]
        · refine Or.inr (Or.inl ⟨hmini, rfl, ?_⟩)
          simp [classifyTrace, classify_with_confidence_upgrade, hmini,
            if_pos hesc, hupt, hunk]
      | false =>
        refine Or.inr (Or.inr (Or.inr (Or.inl ⟨hmini, rfl,
          record_success s .openai_gpt4o_mini, ?_⟩)))
        rcases hbkv : (try_backup_providers env cfg now
            (record_success s .openai_gpt4o_mini)).1 with _ | br <;>
          simp [classifyTrace, classify_with_confidence_upgrade, hmini,
            if_pos hesc, hupt, hbkv]
    · refine Or.inl ⟨hmini, ?_⟩
      simp [classifyTrace, classify_with_confidence_upgrade, hmini, hesc]
  · have hm : env.mini.success = false := by
      revert hmini; cases env.mini.success <;> simp
    refine Or.inr (Or.inr (Or.inr (Or.inr ⟨hm,
      record_failure now (record_failure now s .openai_gpt4o_mini)
        .openai_gpt4o_mini, ?_⟩)))
    rcases hbkv : (try_backup_providers env cfg now
        (record_failure now (record_failure now s .openai_gpt4o_mini)
          .openai_gpt4o_mini)).1 with _ | br <;>
      simp [classifyTrace, classify_with_confidence_upgrade, hm, hbkv]

/-- Claim C1, counterexample: health bookkeeping is not complete. In a run
where the quality-upgrade call fails with no backups configured, the
quality provider is called once but no health record for it ever
follows; and a single failing primary call is followed by two
record-failure updates rather than one.
-/
theorem health_bookkeeping_cex :
    (classifyTrace
        ({ mini := ⟨true, "invoice", 0, "gpt-4o-mini", ""⟩
           gpt4o := ⟨false, "unknown", 0, "gpt-4o", "timeout"⟩
           gemini := ⟨true, "invoice", 1, "gemini-1.5-flash", ""⟩
           claude := ⟨true, "invoice", 1, "claude-3-haiku", ""⟩ } :
             AdapterEnv)
        ⟨false, false⟩ (1 : ℚ) 10 HealthState.init =
      [Event.call .openai_gpt4o_mini, Event.recSuccess .openai_gpt4o_mini,
       Event.call .openai_gpt4o]
      ∧ callCount
          (classifyTrace
            ({ mini := ⟨true, "invoice", 0, "gpt-4o-mini", ""⟩
               gpt4o := ⟨false, "unknown", 0, "gpt-4o", "timeout"⟩
               gemini := ⟨true, "invoice", 1, "gemini-1.5-flash", ""⟩
               claude := ⟨true, "invoice", 1, "claude-3-haiku", ""⟩ } :
                 AdapterEnv)
            ⟨false, false⟩ (1 : ℚ) 10 HealthState.init) .openai_gpt4o = 1
      ∧ recCount
          (classifyTrace
            ({ mini := ⟨true, "invoice", 0, "gpt-4o-mini", ""⟩
               gpt4o := ⟨false, "unknown", 0, "gpt-4o", "timeout"⟩
               gemini := ⟨true, "invoice", 1, "gemini-1.5-flash", ""⟩
               claude := ⟨true, "invoice", 1, "claude-3-haiku", ""⟩ } :
                 AdapterEnv)
            ⟨false, false⟩ (1 : ℚ) 10 HealthState.init) .openai_gpt4o = 0)
    ∧ (classifyTrace
        ({ mini := ⟨false, "unknown", 0, "gpt-4o-mini", "timeout"⟩
           gpt4o := ⟨true, "invoice", 1, "gpt-4o", ""⟩
           gemini := ⟨true, "invoice", 1, "gemini-1.5-flash", ""⟩
           claude := ⟨true, "invoice", 1, "claude-3-haiku", ""⟩ } :
             AdapterEnv)
        ⟨false, false⟩ (1 : ℚ) 10 HealthState.init =
      [Event.call .openai_gpt4o_mini, Event.recFailure .openai_gpt4o_mini,
       Event.recFailure .openai_gpt4o_mini]
      ∧ callCount
          (classifyTrace
            ({ mini := ⟨false, "unknown", 0, "gpt-4o-mini", "timeout"⟩
               gpt4o := ⟨true, "invoice", 1, "gpt-4o", ""⟩
               gemini := ⟨true, "invoice", 1, "gemini-1.5-flash", ""⟩
               claude := ⟨true, "invoice", 1, "claude-3-haiku", ""⟩ } :
                 AdapterEnv)
            ⟨false, false⟩ (1 : ℚ) 10 HealthState.init) .openai_gpt4o_mini = 1
      ∧ recCount
          (classifyTrace
            ({ mini := ⟨false, "unknown", 0, "gpt-4o-mini", "timeout"⟩
               gpt4o := ⟨true, "invoice", 1, "gpt-4o", ""⟩
               gemini := ⟨true, "invoice", 1, "gemini-1.5-flash", ""⟩
               claude := ⟨true, "invoice", 1, "claude-3-haiku", ""⟩ } :
                 AdapterEnv)
            ⟨false, false⟩ (1 : ℚ) 10 HealthState.init)
            .openai_gpt4o_mini = 2) := by
  refine ⟨⟨by decide, by decide, by decide⟩, ⟨by decide, by decide, by decide⟩⟩

/-- Claim C1, amended: health bookkeeping per provider. In every run the
primary is called exactly once; a successful primary call is followed
by exactly one health record for it, while a failing primary call
produces two record-failure updates; the quality provider is called at
most once, and a quality call is followed by exactly one record when
it succeeds and by no record at all when it fails; each backup
provider is called at most once and receives exactly one health record
per call.
-/
theorem health_bookkeeping_amended (env : AdapterEnv) (cfg : BackupConfig)
    (th : ℚ) (now : Nat) (s : HealthState) :
    callCount (classifyTrace env cfg th now s) .openai_gpt4o_mini = 1
    ∧ recCount (classifyTrace env cfg th now s) .openai_gpt4o_mini =
        (if env.mini.success = true then 1 else 2)
    ∧ callCount (classifyTrace env cfg th now s) .openai_gpt4o ≤ 1
    ∧ recCount (classifyTrace env cfg th now s) .openai_gpt4o =
        (if callCount (classifyTrace env cfg th now s) .openai_gpt4o = 1
            ∧ env.gpt4o.success = true then 1 else 0)
    ∧ (∀ p, p = LLMProvider.google_gemini ∨ p = LLMProvider.anthropic_claude →
        recCount (classifyTrace env cfg th now s) p =
          callCount (classifyTrace env cfg th now s) p
        ∧ callCount (classifyTrace env cfg th now s) p ≤ 1) := by
  rcases classify_trace_cases env cfg th now s with
    ⟨hm, htr⟩ | ⟨hm, hg, htr⟩ | ⟨hm, hg, s', htr⟩ | ⟨hm, hg, s', htr⟩ |
    ⟨hm, s', htr⟩
  · refine ⟨?_, ?_, ?_, ?_, ?_⟩
    · simp [htr, callCount, List.count_cons]
    · simp [htr, hm, recCount, List.count_cons]
    · simp [htr, callCount, List.count_cons]
    · have h0 : callCount (classifyTrace env cfg th now s) .openai_gpt4o = 0 := by
        simp [htr, callCount, List.count_cons]
      rw [if_neg (fun hc => by rw [h0] at hc; exact absurd hc.1 (by decide))]
      simp [htr, recCount, List.count_cons]
    · intro p hp
      rcases hp with hp | hp <;> subst hp <;>
        simp [htr, callCount, recCount, List.count_cons]
  · refine ⟨?_, ?_, ?_, ?_, ?_⟩
    · simp [htr, callCount, List.count_cons]
    · simp [htr, hm, recCount, List.count_cons]
    · simp [htr, callCount, List.count_cons]
    · have h1 : callCount (classifyTrace env cfg th now s) .openai_gpt4o = 1 := by
        simp [htr, callCount, List.count_cons]
      rw [if_pos ⟨h1, hg⟩]
      simp [htr, recCount, List.count_cons]
    · intro p hp
      rcases hp with hp | hp <;> subst hp <;>
        simp [htr, callCount, recCount, List.count_cons]
  · have hc := try_backup_counts env cfg now s'
    refine ⟨?_, ?_, ?_, ?_, ?_⟩
    · have := hc.1
      simp only [callCount] at this ⊢
      simp [htr, List.count_append, List.count_cons, this]
    · have h1 := hc.1
      have h2 := hc.2.1
      simp only [callCount, recCount] at h1 h2 ⊢
      simp only [htr, hm, if_true]
      simp [List.count_append, List.count_cons]
      omega
    · have := hc.2.2.1
      simp only [callCount] at this ⊢
      simp [htr, List.count_append, List.count_cons, this]
    · have h1 : callCount (classifyTrace env cfg th now s) .openai_gpt4o = 1 := by
        have := hc.2.2.1
        simp only [callCount] at this ⊢
        simp [htr, List.count_append, List.count_cons, this]
      rw [if_pos ⟨h1, hg⟩]
      have h2 := hc.2.2.1
      have h3 := hc.2.2.2.1
      simp only [callCount, recCount] at h2 h3 ⊢
      simp [htr, List.count_append, List.count_cons]
      omega
    · intro p hp
      have h1 := hc.2.2.2.2 p hp
      simp only [callCount, recCount] at h1 ⊢
      rcases hp with hp | hp <;> subst hp <;>
        (simp [htr, List.count_append, List.count_cons]; omega)
  · have hc := try_backup_counts env cfg now s'
    refine ⟨?_, ?_, ?_, ?_, ?_⟩
    · have := hc.1
      simp only [callCount] at this ⊢
      simp [htr, List.count_append, List.count_cons, this]
    · have h1 := hc.1
      have h2 := hc.2.1
      simp only [callCount, recCount] at h1 h2 ⊢
      simp only [htr, hm, if_true]
      simp [List.count_append, List.count_cons]
      omega
    · have := hc.2.2.1
      simp only [callCount] at this ⊢
      simp [htr, List.count_append, List.count_cons, this]
    · have hgf : ¬(callCount (classifyTrace env cfg th now s) .openai_gpt4o = 1
          ∧ env.gpt4o.success = true) := by
        rintro ⟨-, hgs⟩
        rw [hg] at hgs
        exact Bool.noConfusion hgs
      rw [if_neg hgf]
      have h2 := hc.2.2.1
      have h3 := hc.2.2.2.1
      simp only [callCount, recCount] at h2 h3 ⊢
      simp [htr, List.count_append, List.count_cons]
      omega
    · intro p hp
      have h1 := hc.2.2.2.2 p hp
      simp only [callCount, recCount] at h1 ⊢
      rcases hp with hp | hp <;> subst hp <;>
        (simp [htr, List.count_append, List.count_cons]; omega)
  · have hc := try_backup_counts env cfg now s'
    refine ⟨?_, ?_, ?_, ?_, ?_⟩
    · have := hc.1
      simp only [callCount] at this ⊢
      simp [htr, List.count_append, List.count_cons, this]
    · have h1 := hc.1
      have h2 := hc.2.1
      simp only [callCount, recCount] at h1 h2 ⊢
      simp only [htr, hm]
      simp [List.count_append, List.count_cons]
      omega
    · have := hc.2.2.1
      simp only [callCount] at this ⊢
      simp [htr, List.count_append, List.count_cons, this]
    · have h0 : callCount (classifyTrace env cfg th now s) .openai_gpt4o = 0 := by
        have := hc.2.2.1
        simp only [callCount] at this ⊢
        simp [htr, List.count_append, List.count_cons, this]
      rw [if_neg (fun hcc => by rw [h0] at hcc; exact absurd hcc.1 (by decide))]
      have h3 := hc.2.2.2.1
      simp only [callCount, recCount] at h3 ⊢
      simp [htr, List.count_append, List.count_cons]
      omega
    · intro p hp
      have h1 := hc.2.2.2.2 p hp
      simp only [callCount, recCount] at h1 ⊢
      rcases hp with hp | hp <;> subst hp <;>
        (simp [htr, List.count_append, List.count_cons]; omega)

/-- Claim C3: escalation policy. When the primary call succeeds with a
label other than unknown and confidence at or above the threshold, the
primary result is returned as-is with upgraded false and the primary
provider recorded, and the run makes no further call of any kind;
otherwise exactly one escalation call to the quality provider occurs,
and it is the third event of the trace, before any backup call.
-/
theorem escalation_policy (env : AdapterEnv) (cfg : BackupConfig) (th : ℚ)
    (now : Nat) (s : HealthState) (hmini : env.mini.success = true) :
    (env.mini.classification ≠ "unknown" → th ≤ env.mini.confidence →
      classify_with_confidence_upgrade env cfg th now s =
        (Except.ok { env.mini.toResult with
                     provider_used := some "openai_gpt4o_mini"
                     upgraded := some false },
         record_success s .openai_gpt4o_mini,
         [Event.call .openai_gpt4o_mini, Event.recSuccess .openai_gpt4o_mini]))
    ∧ ((env.mini.confidence < th ∨ env.mini.classification = "unknown") →
      callCount (classify_with_confidence_upgrade env cfg th now s).2.2
          .openai_gpt4o = 1
      ∧ (classify_with_confidence_upgrade env cfg th now s).2.2.take 3 =
        [Event.call .openai_gpt4o_mini, Event.recSuccess .openai_gpt4o_mini,
         Event.call .openai_gpt4o]) := by
  constructor
  · intro hne hge
    have hcond : ¬(env.mini.confidence < th ∨ env.mini.classification = "unknown") := by
      rintro (h | h)
      · exact absurd hge (not_le_of_lt h)
      · exact hne h
    simp [classify_with_confidence_upgrade, hmini, hcond]
  · intro hesc
    cases hupt : env.gpt4o.success with
    | true =>
      by_cases hunk : env.gpt4o.classification = "unknown"
      · have hc := (try_backup_counts env cfg now
          (record_success (record_success s .openai_gpt4o_mini)
            .openai_gpt4o)).2.2.1
        rcases hbkv : (try_backup_providers env cfg now
            (record_success (record_success s .openai_gpt4o_mini)
              .openai_gpt4o)).1 with _ | br
        · simp only [classify_with_confidence_upgrade, hmini, if_pos hesc,
            hupt, hunk] at *
          simp only [callCount] at hc ⊢
          simp [hbkv, List.count_append, List.count_cons, hc]
        · by_cases hbru : br.classification ≠ "unknown"
          · simp only [classify_with_confidence_upgrade, hmini, if_pos hesc,
              hupt, hunk] at *
            simp only [callCount] at hc ⊢
            simp [hbkv, hbru, List.count_append, List.count_cons, hc]
          · simp only [classify_with_confidence_upgrade, hmini, if_pos hesc,
              hupt, hunk] at *
            simp only [callCount] at hc ⊢
            simp [hbkv, hbru, List.count_append, List.count_cons, hc]
      · simp only [classify_with_confidence_upgrade, hmini, if_pos hesc,
          hupt, hunk]
        simp [callCount, List.count_cons]
    | false =>
      have hc := (try_backup_counts env cfg now
        (record_success s .openai_gpt4o_mini)).2.2.1
      rcases hbkv : (try_backup_providers env cfg now
          (record_success s .openai_gpt4o_mini)).1 with _ | br
      · simp only [classify_with_confidence_upgrade, hmini, if_pos hesc,
          hupt] at *
        simp only [callCount] at hc ⊢
        simp [hbkv, List.count_append, List.count_cons, hc]
      · simp only [classify_with_confidence_upgrade, hmini, if_pos hesc,
          hupt] at *
        simp only [callCount] at hc ⊢
        simp [hbkv, List.count_append, List.count_cons, hc]

/-- Witness for escalation_policy: a confident invoice answer from the
primary is returned untouched after exactly two events, and a
low-confidence answer triggers the quality call as the third event. -/
theorem escalation_policy_witness :
    (({ mini := ⟨true, "invoice", 19/20, "gpt-4o-mini", ""⟩
        gpt4o := ⟨true, "invoice", 49/50, "gpt-4o", ""⟩
        gemini := ⟨true, "invoice", 9/10, "gemini-1.5-flash", ""⟩
        claude := ⟨true, "invoice", 9/10, "claude-3-haiku", ""⟩ } :
          AdapterEnv).mini.success = true
      ∧ classify_with_confidence_upgrade
          ({ mini := ⟨true, "invoice", 19/20, "gpt-4o-mini", ""⟩
             gpt4o := ⟨true, "invoice", 49/50, "gpt-4o", ""⟩
             gemini := ⟨true, "invoice", 9/10, "gemini-1.5-flash", ""⟩
             claude := ⟨true, "invoice", 9/10, "claude-3-haiku", ""⟩ } :
               AdapterEnv) ⟨true, true⟩ (4/5 : ℚ) 50 HealthState.init =
        (Except.ok { classification := "invoice", confidence := 19/20,
                     model := "gpt-4o-mini",
                     provider_used := some "openai_gpt4o_mini",
                     upgraded := some false },
         record_success HealthState.init .openai_gpt4o_mini,
         [Event.call .openai_gpt4o_mini, Event.recSuccess .openai_gpt4o_mini]))
    ∧ ((classify_with_confidence_upgrade
          ({ mini := ⟨true, "invoice", 3/5, "gpt-4o-mini", ""⟩
             gpt4o := ⟨true, "invoice", 23/25, "gpt-4o", ""⟩
             gemini := ⟨true, "invoice", 9/10, "gemini-1.5-flash", ""⟩
             claude := ⟨true, "invoice", 9/10, "claude-3-haiku", ""⟩ } :
               AdapterEnv) ⟨true, true⟩ (4/5 : ℚ) 50 HealthState.init).2.2.take 3 =
        [Event.call .openai_gpt4o_mini, Event.recSuccess .openai_gpt4o_mini,
         Event.call .openai_gpt4o]) := by
  refine ⟨⟨by decide, ?_⟩, ?_⟩
  · exact (escalation_policy
      { mini := ⟨true, "invoice", 19/20, "gpt-4o-mini", ""⟩
        gpt4o := ⟨true, "invoice", 49/50, "gpt-4o", ""⟩
        gemini := ⟨true, "invoice", 9/10, "gemini-1.5-flash", ""⟩
        claude := ⟨true, "invoice", 9/10, "claude-3-haiku", ""⟩ }
      ⟨true, true⟩ (4/5 : ℚ) 50 HealthState.init (by decide)).1
      (by decide) (by norm_num)
  · exact ((escalation_policy
      { mini := ⟨true, "invoice", 3/5, "gpt-4o-mini", ""⟩
        gpt4o := ⟨true, "invoice", 23/25, "gpt-4o", ""⟩
        gemini := ⟨true, "invoice", 9/10, "gemini-1.5-flash", ""⟩
        claude := ⟨true, "invoice", 9/10, "claude-3-haiku", ""⟩ }
      ⟨true, true⟩ (4/5 : ℚ) 50 HealthState.init (by decide)).2
      (Or.inl (by norm_num))).2

/-- Claim C8: still unknown after escalation. When the primary succeeds,
escalation is triggered, the quality call succeeds and its label is
still unknown, the backup chain is attempted; a backup result with a
label other than unknown becomes the final result keeping upgraded true
and an upgrade-reason annotation; otherwise the escalated result is
returned, carrying upgraded true and the original confidence and
classification of the primary attempt.
-/
theorem still_unknown_escalation_spec (env : AdapterEnv) (cfg : BackupConfig)
    (th : ℚ) (now : Nat) (s : HealthState)
    (hmini : env.mini.success = true)
    (hesc : env.mini.confidence < th ∨ env.mini.classification = "unknown")
    (hupt : env.gpt4o.success = true)
    (hunk : env.gpt4o.classification = "unknown") :
    (classify_with_confidence_upgrade env cfg th now s).2.2 =
      [Event.call .openai_gpt4o_mini, Event.recSuccess .openai_gpt4o_mini,
       Event.call .openai_gpt4o, Event.recSuccess .openai_gpt4o] ++
      (try_backup_providers env cfg now
        (record_success (record_success s .openai_gpt4o_mini)
          .openai_gpt4o)).2.2
    ∧ (∀ br, (try_backup_providers env cfg now
          (record_success (record_success s .openai_gpt4o_mini)
            .openai_gpt4o)).1 = some br →
        br.classification ≠ "unknown" →
        (classify_with_confidence_upgrade env cfg th now s).1 =
          Except.ok { br with
                      upgraded := some true
                      upgrade_reason := some "unknown after GPT-4o" })
    ∧ (∀ br, (try_backup_providers env cfg now
          (record_success (record_success s .openai_gpt4o_mini)
            .openai_gpt4o)).1 = some br →
        br.classification = "unknown" →
        (classify_with_confidence_upgrade env cfg th now s).1 =
          Except.ok { env.gpt4o.toResult with
                      provider_used := some "openai_gpt4o"
                      upgraded := some true
                      upgrade_reason := some (if env.mini.classification =
                        "unknown" then "unknown classification"
                        else "low confidence")
                      original_confidence := some env.mini.confidence
                      original_classification := some env.mini.classification })
    ∧ ((try_backup_providers env cfg now
          (record_success (record_success s .openai_gpt4o_mini)
            .openai_gpt4o)).1 = none →
        (classify_with_confidence_upgrade env cfg th now s).1 =
          Except.ok { env.gpt4o.toResult with
                      provider_used := some "openai_gpt4o"
                      upgraded := some true
                      upgrade_reason := some (if env.mini.classification =
                        "unknown" then "unknown classification"
                        else "low confidence")
                      original_confidence := some env.mini.confidence
                      original_classification := some env.mini.classification }) := by
  refine ⟨?_, ?_, ?_, ?_⟩
  · rcases hbkv : (try_backup_providers env cfg now
        (record_success (record_success s .openai_gpt4o_mini)
          .openai_gpt4o)).1 with _ | br
    · simp [classify_with_confidence_upgrade, hmini, if_pos hesc, hupt,
        hunk, hbkv]
    · by_cases hbru : br.classification ≠ "unknown"
      · simp [classify_with_confidence_upgrade, hmini, if_pos hesc, hupt,
          hunk, hbkv, hbru]
      · simp [classify_with_confidence_upgrade, hmini, if_pos hesc, hupt,
          hunk, hbkv, hbru]
  · intro br hbkv hbru
    simp [classify_with_confidence_upgrade, hmini, if_pos hesc, hupt,
      hunk, hbkv, hbru]
  · intro br hbkv hbru
    simp [classify_with_confidence_upgrade, hmini, if_pos hesc, hupt,
      hunk, hbkv, hbru]
  · intro hbkv
    simp [classify_with_confidence_upgrade, hmini, if_pos hesc, hupt,
      hunk, hbkv]

/-- Witness for still_unknown_escalation_spec: primary and quality both
answer unknown, the enabled gemini backup answers invoice, and the
backup result is surfaced with upgraded true and the upgrade-reason
annotation. -/
theorem still_unknown_escalation_spec_witness :
    (({ mini := ⟨true, "unknown", 0, "gpt-4o-mini", ""⟩
        gpt4o := ⟨true, "unknown", 0, "gpt-4o", ""⟩
        gemini := ⟨true, "invoice", 1, "gemini-1.5-flash", ""⟩
        claude := ⟨true, "invoice", 1, "claude-3-haiku", ""⟩ } :
          AdapterEnv).mini.success = true)
    ∧ (classify_with_confidence_upgrade
        ({ mini := ⟨true, "unknown", 0, "gpt-4o-mini", ""⟩
           gpt4o := ⟨true, "unknown", 0, "gpt-4o", ""⟩
           gemini := ⟨true, "invoice", 1, "gemini-1.5-flash", ""⟩
           claude := ⟨true, "invoice", 1, "claude-3-haiku", ""⟩ } :
             AdapterEnv) ⟨true, true⟩ (1 : ℚ) 60 HealthState.init).1 =
      Except.ok { classification := "invoice", confidence := 1,
                  model := "gemini-1.5-flash",
                  provider_used := some "google_gemini",
                  is_backup := some true,
                  upgraded := some true,
                  upgrade_reason := some "unknown after GPT-4o" } := by
  refine ⟨by decide, ?_⟩
  have h := (still_unknown_escalation_spec
    { mini := ⟨true, "unknown", 0, "gpt-4o-mini", ""⟩
      gpt4o := ⟨true, "unknown", 0, "gpt-4o", ""⟩
      gemini := ⟨true, "invoice", 1, "gemini-1.5-flash", ""⟩
      claude := ⟨true, "invoice", 1, "claude-3-haiku", ""⟩ }
    ⟨true, true⟩ (1 : ℚ) 60 HealthState.init (by decide)
    (Or.inr (by decide)) (by decide) (by decide)).2.1
    { classification := "invoice", confidence := 1,
      model := "gemini-1.5-flash",
      provider_used := some "google_gemini",
      is_backup := some true } (by decide) (by decide)
  exact h

/-- Claim C9: quality-upgrade failure. When the primary succeeds,
escalation is triggered and the quality call fails, the backup chain is
attempted; a backup success is returned as the final result carrying
the backup marker; when no backup succeeds, the original primary result
is returned carrying the primary provider, upgraded false and the
upgrade-failed marker.
-/
theorem upgrade_failure_fallback_spec (env : AdapterEnv) (cfg : BackupConfig)
    (th : ℚ) (now : Nat) (s : HealthState)
    (hmini : env.mini.success = true)
    (hesc : env.mini.confidence < th ∨ env.mini.classification = "unknown")
    (hupf : env.gpt4o.success = false) :
    (classify_with_confidence_upgrade env cfg th now s).2.2 =
      [Event.call .openai_gpt4o_mini, Event.recSuccess .openai_gpt4o_mini,
       Event.call .openai_gpt4o] ++
      (try_backup_providers env cfg now
        (record_success s .openai_gpt4o_mini)).2.2
    ∧ (∀ br, (try_backup_providers env cfg now
          (record_success s .openai_gpt4o_mini)).1 = some br →
        (classify_with_confidence_upgrade env cfg th now s).1 = Except.ok br
        ∧ br.is_backup = some true)
    ∧ ((try_backup_providers env cfg now
          (record_success s .openai_gpt4o_mini)).1 = none →
        (classify_with_confidence_upgrade env cfg th now s).1 =
          Except.ok { env.mini.toResult with
                      provider_used := some "openai_gpt4o_mini"
                      upgraded := some false
                      upgrade_failed := some true }) := by
  refine ⟨?_, ?_, ?_⟩
  · rcases hbkv : (try_backup_providers env cfg now
        (record_success s .openai_gpt4o_mini)).1 with _ | br
    · simp [classify_with_confidence_upgrade, hmini, if_pos hesc, hupf, hbkv]
    · simp [classify_with_confidence_upgrade, hmini, if_pos hesc, hupf, hbkv]
  · intro br hbkv
    refine ⟨?_, ?_⟩
    · simp [classify_with_confidence_upgrade, hmini, if_pos hesc, hupf, hbkv]
    · exact (tryBackupList_some_spec env cfg now backup_order
        (record_success s .openai_gpt4o_mini) br hbkv).1
  · intro hbkv
    simp [classify_with_confidence_upgrade, hmini, if_pos hesc, hupf, hbkv]

/-- Witness for upgrade_failure_fallback_spec: escalation of an unknown
primary answer fails and no backup is configured, so the primary result
comes back with the upgrade-failed marker. -/
theorem upgrade_failure_fallback_spec_witness :
    (({ mini := ⟨true, "unknown", 0, "gpt-4o-mini", ""⟩
        gpt4o := ⟨false, "unknown", 0, "gpt-4o", "rate limit"⟩
        gemini := ⟨true, "invoice", 1, "gemini-1.5-flash", ""⟩
        claude := ⟨true, "invoice", 1, "claude-3-haiku", ""⟩ } :
          AdapterEnv).mini.success = true)
    ∧ (classify_with_confidence_upgrade
        ({ mini := ⟨true, "unknown", 0, "gpt-4o-mini", ""⟩
           gpt4o := ⟨false, "unknown", 0, "gpt-4o", "rate limit"⟩
           gemini := ⟨true, "invoice", 1, "gemini-1.5-flash", ""⟩
           claude := ⟨true, "invoice", 1, "claude-3-haiku", ""⟩ } :
             AdapterEnv) ⟨false, false⟩ (1 : ℚ) 60 HealthState.init).1 =
      Except.ok { classification := "unknown", confidence := 0,
                  model := "gpt-4o-mini",
                  provider_used := some "openai_gpt4o_mini",
                  upgraded := some false,
                  upgrade_failed := some true } := by
  refine ⟨by decide, ?_⟩
  exact (upgrade_failure_fallback_spec
    { mini := ⟨true, "unknown", 0, "gpt-4o-mini", ""⟩
      gpt4o := ⟨false, "unknown", 0, "gpt-4o", "rate limit"⟩
      gemini := ⟨true, "invoice", 1, "gemini-1.5-flash", ""⟩
      claude := ⟨true, "invoice", 1, "claude-3-haiku", ""⟩ }
    ⟨false, false⟩ (1 : ℚ) 60 HealthState.init (by decide)
    (Or.inr (by decide)) (by decide)).2.2 (by decide)

/-- Witness for circuit_breaker_spec at concrete inputs: a provider
with three fresh failures inside the cooldown window is unhealthy, a
healthy-counter provider passes the check, and one success resets a
tripped provider. -/
theorem circuit_breaker_spec_witness :
    ((HealthState.init.get LLMProvider.google_gemini).failures = 0
      ∧ (1000 : Nat) - 990 ≤ 300
      ∧ (is_provider_healthy 1000
          (record_failure 990
            (record_failure 950
              (record_failure 900 HealthState.init LLMProvider.google_gemini)
              LLMProvider.google_gemini)
            LLMProvider.google_gemini)
          LLMProvider.google_gemini).1 = false)
    ∧ ((HealthState.init.get LLMProvider.openai_gpt4o_mini).failures < 3
      ∧ is_provider_healthy 50 HealthState.init LLMProvider.openai_gpt4o_mini
          = (true, HealthState.init)) := by
  refine ⟨⟨by decide, by decide, ?_⟩, ⟨by decide, ?_⟩⟩
  · exact circuit_breaker_spec.2.2.1 HealthState.init LLMProvider.google_gemini
      900 950 990 1000 (by decide) (by decide)
  · exact circuit_breaker_spec.1 50 HealthState.init LLMProvider.openai_gpt4o_mini
      (by decide)

/-- Witness for health_bookkeeping_amended: at a concrete run with an
enabled succeeding gemini backup, the gemini record count equals its
call count. -/
theorem health_bookkeeping_amended_witness :
    (LLMProvider.google_gemini = LLMProvider.google_gemini
      ∨ LLMProvider.google_gemini = LLMProvider.anthropic_claude)
    ∧ recCount
        (classifyTrace
          ({ mini := ⟨false, "unknown", 0, "gpt-4o-mini", "timeout"⟩
             gpt4o := ⟨true, "invoice", 1, "gpt-4o", ""⟩
             gemini := ⟨true, "invoice", 1, "gemini-1.5-flash", ""⟩
             claude := ⟨true, "invoice", 1, "claude-3-haiku", ""⟩ } :
               AdapterEnv) ⟨true, true⟩ (1 : ℚ) 10 HealthState.init)
        .google_gemini =
      callCount
        (classifyTrace
          ({ mini := ⟨false, "unknown", 0, "gpt-4o-mini", "timeout"⟩
             gpt4o := ⟨true, "invoice", 1, "gpt-4o", ""⟩
             gemini := ⟨true, "invoice", 1, "gemini-1.5-flash", ""⟩
             claude := ⟨true, "invoice", 1, "claude-3-haiku", ""⟩ } :
               AdapterEnv) ⟨true, true⟩ (1 : ℚ) 10 HealthState.init)
        .google_gemini :=
  ⟨Or.inl rfl,
   ((health_bookkeeping_amended
      { mini := ⟨false, "unknown", 0, "gpt-4o-mini", "timeout"⟩
        gpt4o := ⟨true, "invoice", 1, "gpt-4o", ""⟩
        gemini := ⟨true, "invoice", 1, "gemini-1.5-flash", ""⟩
        claude := ⟨true, "invoice", 1, "claude-3-haiku", ""⟩ }
      ⟨true, true⟩ (1 : ℚ) 10 HealthState.init).2.2.2.2
      LLMProvider.google_gemini (Or.inl rfl)).1⟩

/-- Claim C5, counterexample: label coercion does not cover every path.
When the multi-provider orchestrator raises and the fallback vision
call fails, classify_with_llm surfaces the processing_error sentinel,
which is neither in the requested category set nor the unknown label.
-/
theorem label_validation_cex :
    (classify_with_llm ["invoice", "bank_statement"]
      (Except.error "All LLM providers failed")
      ⟨false, "OpenAI client not initialized",
        ParsedContent.jsonError ""⟩).classification = "processing_error"
    ∧ "processing_error" ∉ ["invoice", "bank_statement"]
    ∧ ("processing_error" : String) ≠ "unknown" := by
  refine ⟨rfl, by decide, by decide⟩

/-- Claim C5, amended: label validation. On the multi-provider path and on
the fallback path with a successfully parsed response, the surfaced
label is in the requested category set or coerced to unknown; the
fallback with a failed vision call surfaces the processing_error
sentinel un-coerced, and the fallback with an unparseable response
surfaces the parsing_error sentinel un-coerced.
-/
theorem label_validation_amended :
    (∀ (cats : List String) (r : ClassifyResult) (fb : VisionResponse),
      (classify_with_llm cats (Except.ok r) fb).classification ∈ cats
      ∨ (classify_with_llm cats (Except.ok r) fb).classification = "unknown")
    ∧ (∀ (cats : List String) (e : String) (fb : VisionResponse)
        (c : String) (conf : ℚ),
        fb.success = true → fb.parsed = ParsedContent.ok c conf →
        (classify_with_llm cats (Except.error e) fb).classification ∈ cats
        ∨ (classify_with_llm cats (Except.error e) fb).classification =
            "unknown")
    ∧ (∀ (cats : List String) (e : String) (fb : VisionResponse),
        fb.success = false →
        (classify_with_llm cats (Except.error e) fb).classification =
          "processing_error")
    ∧ (∀ (cats : List String) (e : String) (fb : VisionResponse)
        (m : String), fb.success = true →
        fb.parsed = ParsedContent.jsonError m →
        (classify_with_llm cats (Except.error e) fb).classification =
          "parsing_error") := by
  refine ⟨?_, ?_, ?_, ?_⟩
  · intro cats r fb
    by_cases hmem : r.classification ∈ cats
    · exact Or.inl (by simp [classify_with_llm, hmem])
    · exact Or.inr (by simp [classify_with_llm, hmem])
  · intro cats e fb c conf hfs hfp
    by_cases hmem : c ∈ cats
    · exact Or.inl (by
        simp [classify_with_llm, parse_llm_response, hfs, hfp, hmem])
    · exact Or.inr (by
        simp [classify_with_llm, parse_llm_response, hfs, hfp, hmem])
  · intro cats e fb hfs
    simp [classify_with_llm, parse_llm_response, hfs]
  · intro cats e fb m hfs hfp
    simp [classify_with_llm, parse_llm_response, hfs, hfp]

/-- Witness for label_validation_amended: a failed fallback call yields
the processing_error sentinel, and an out-of-set parsed label is
coerced to unknown. -/
theorem label_validation_amended_witness :
    ((⟨false, "boom", ParsedContent.jsonError ""⟩ : VisionResponse).success
        = false
      ∧ (classify_with_llm ["invoice"] (Except.error "All LLM providers failed")
          ⟨false, "boom", ParsedContent.jsonError ""⟩).classification =
        "processing_error")
    ∧ ((⟨true, "", ParsedContent.ok "drivers_license" 1⟩ :
          VisionResponse).success = true
      ∧ (⟨true, "", ParsedContent.ok "drivers_license" 1⟩ :
          VisionResponse).parsed = ParsedContent.ok "drivers_license" 1
      ∧ ((classify_with_llm ["invoice"]
            (Except.error "All LLM providers failed")
            ⟨true, "", ParsedContent.ok "drivers_license" 1⟩).classification
            ∈ ["invoice"]
        ∨ (classify_with_llm ["invoice"]
            (Except.error "All LLM providers failed")
            ⟨true, "", ParsedContent.ok "drivers_license" 1⟩).classification
            = "unknown")) := by
  refine ⟨⟨rfl, ?_⟩, ⟨rfl, rfl, ?_⟩⟩
  · exact label_validation_amended.2.2.1 ["invoice"]
      "All LLM providers failed" ⟨false, "boom", ParsedContent.jsonError ""⟩
      rfl
  · exact label_validation_amended.2.1 ["invoice"]
      "All LLM providers failed" ⟨true, "", ParsedContent.ok "drivers_license" 1⟩
      "drivers_license" 1 rfl rfl

/-- Claim C6, counterexample: the all-providers-failed error does not
propagate to the job queue. classify_with_llm catches it and falls back
to the single-provider pipeline, so the task completes normally with
the fallback result instead of entering the retry-versus-terminal
decision.
-/
theorem all_providers_failed_swallowed_cex :
    classify_with_llm ["invoice"] (Except.error "All LLM providers failed")
        ⟨false, "OpenAI client not initialized", ParsedContent.jsonError ""⟩ =
      { classification := "processing_error", confidence := 0,
        reasoning := some "LLM call failed: OpenAI client not initialized" }
    ∧ classify_document_async task_max_retries 0
        (Except.ok (classify_with_llm ["invoice"]
          (Except.error "All LLM providers failed")
          ⟨false, "OpenAI client not initialized",
            ParsedContent.jsonError ""⟩)) =
      TaskStep.completed
        { classification := "processing_error", confidence := 0,
          reasoning := some "LLM call failed: OpenAI client not initialized" } := by
  refine ⟨rfl, rfl⟩

/-- Claim C6, amended: retry policy. An orchestrator error is consumed by
classify_with_llm, which returns the fallback pipeline result; a task
attempt whose pipeline returns normally completes; an exception that
does escape the pipeline is retried with delay 60 * 2 ^ retries while
fewer than the configured three retries are consumed, and otherwise
the task ends failed with the last error message.
-/
theorem retry_policy_amended :
    (∀ (cats : List String) (e : String) (fb : VisionResponse),
      classify_with_llm cats (Except.error e) fb = parse_llm_response fb cats)
    ∧ (∀ (r : LLMCallFinal) (retries : Nat),
        classify_document_async task_max_retries retries (Except.ok r) =
          TaskStep.completed r)
    ∧ (∀ (e : String) (retries : Nat), retries < task_max_retries →
        classify_document_async task_max_retries retries (Except.error e) =
          TaskStep.retryAfter (60 * 2 ^ retries))
    ∧ (∀ (e : String) (retries : Nat), ¬ retries < task_max_retries →
        classify_document_async task_max_retries retries (Except.error e) =
          TaskStep.failed e) := by
  refine ⟨?_, ?_, ?_, ?_⟩
  · intro cats e fb
    simp [classify_with_llm]
  · intro r retries
    simp [classify_document_async]
  · intro e retries hlt
    simp [classify_document_async, hlt]
  · intro e retries hge
    simp [classify_document_async, hge]

/-- Witness for retry_policy_amended: the first failing attempt is
retried after 60 seconds and the fourth attempt fails terminally. -/
theorem retry_policy_amended_witness :
    ((0 : Nat) < task_max_retries
      ∧ classify_document_async task_max_retries 0
          (Except.error "processing failed") =
        TaskStep.retryAfter 60)
    ∧ (¬ (3 : Nat) < task_max_retries
      ∧ classify_document_async task_max_retries 3
          (Except.error "processing failed") =
        TaskStep.failed "processing failed") := by
  refine ⟨⟨by decide, ?_⟩, ⟨by decide, ?_⟩⟩
  · have h := retry_policy_amended.2.2.1 "processing failed" 0 (by decide)
    simpa using h
  · exact retry_policy_amended.2.2.2 "processing failed" 3 (by decide)

/-- Claim C7, counterexample: no not-found status exists. For a task id
never issued by submit, Celery reports the pending state and
get_task_result answers processing, not a not-found marker; the poll
response type has only the three status shapes.
-/
theorem poll_unknown_id_cex :
    get_task_result unknownIdState = PollStatus.processing
    ∧ (get_task_result unknownIdState).statusString = "processing" := by
  refine ⟨rfl, rfl⟩

/-- Claim C7, amended: the result lookup returns exactly one of three
structured statuses: processing while the task is pending, started or
awaiting retry — including ids never issued by submit, which are
reported pending — completed with the stored result on success, and
failed with the stored error on failure.
-/
theorem poll_status_amended :
    (∀ r, get_task_result (CeleryState.success r) = PollStatus.completedWith r)
    ∧ (∀ e, get_task_result (CeleryState.failure e) = PollStatus.failedWith e)
    ∧ get_task_result CeleryState.pending = PollStatus.processing
    ∧ get_task_result CeleryState.started = PollStatus.processing
    ∧ get_task_result CeleryState.retryPending = PollStatus.processing
    ∧ get_task_result unknownIdState = PollStatus.processing
    ∧ (∀ t, (get_task_result t).statusString = "processing"
        ∨ (get_task_result t).statusString = "completed"
        ∨ (get_task_result t).statusString = "failed") := by
  refine ⟨?_, ?_, rfl, rfl, rfl, rfl, ?_⟩
  · intro r
    simp [get_task_result, CeleryState.ready, CeleryState.successful,
      CeleryState.resultOf]
  · intro e
    simp [get_task_result, CeleryState.ready, CeleryState.successful,
      CeleryState.infoStr]
  · intro t
    cases t <;> simp [get_task_result, CeleryState.ready,
      CeleryState.successful, PollStatus.statusString]

end JoinSiege
